import Mathlib

/-!
Verification development for the AzDevOpsAudit repository.

Each Python module of the repository is shallowly embedded as Lean
definitions: the HTTP layer is abstracted as explicit function parameters
(a `children` function standing for the hierarchy relation returned by the
work-item API, a `fetch` function standing for the per-file diff endpoint,
an `api` function standing for the work-item field query), Python sets of
ints become `Finset Nat`, Python dicts become association lists, and
Python exceptions become `Except` results.  The theorems at the end of the
file settle the frozen claims about the specification.
-/

set_option autoImplicit false

namespace AzDevOpsAudit

/-! ### Association lists (model of Python dicts)

Python dict semantics: lookup finds the unique entry for a key; assignment
replaces the value in place for an existing key and appends a new entry
otherwise (insertion order is preserved). -/

def lookupA {α β : Type} [DecidableEq α] (k : α) : List (α × β) → Option β
  | [] => none
  | (k', v) :: rest => if k = k' then some v else lookupA k rest

def updateA {α β : Type} [DecidableEq α] (l : List (α × β)) (k : α) (v : β) : List (α × β) :=
  match l with
  | [] => [(k, v)]
  | (k', v') :: rest => if k = k' then (k, v) :: rest else (k', v') :: updateA rest k v

/-! ### Embedding of `src/workitem.py`

The backing hierarchy graph (what the work-item API would return for each
id) is modelled as a function `children : Nat → List Nat`; the claims
quantify over the backing graph, i.e. over runs in which every fetch
succeeds, so the per-parent failure-skip branch has no effect. -/

structure WIConfig where
  parent_feature_ids : List Nat
  backlog_ids : List Nat
  ignore_ids : List Nat
  deriving Repr, DecidableEq

/-- `WorkItemManager.get_child_work_items` (workitem.py lines 36-59):
iterates over the parent ids and collects the ids of all
`System.LinkTypes.Hierarchy-Forward` relation targets into one set. -/
def get_child_work_items (children : Nat → List Nat) (parent_ids : List Nat) : Finset Nat :=
  parent_ids.foldl (fun child_ids parent_id => child_ids ∪ (children parent_id).toFinset) ∅

/-- `WorkItemManager.get_all_related_work_items` (workitem.py lines 61-83):
starts from the children of the configured parent feature ids, adds the
configured backlog ids, adds the children of everything collected so far,
adds the parent feature ids themselves, and finally removes the ignore
ids.  The Python `list(all_work_items)` conversion is modelled by sorting
the set; the child collection is insensitive to that order. -/
def get_all_related_work_items (children : Nat → List Nat) (config : WIConfig) : Finset Nat :=
  let feature_children := get_child_work_items children config.parent_feature_ids
  let all_work_items₁ := (∅ : Finset Nat) ∪ feature_children
  let all_work_items₂ := all_work_items₁ ∪ config.backlog_ids.toFinset
  let current_items := all_work_items₂.sort (· ≤ ·)
  let all_work_items₃ := all_work_items₂ ∪ get_child_work_items children current_items
  let all_work_items₄ := all_work_items₃ ∪ config.parent_feature_ids.toFinset
  all_work_items₄ \ config.ignore_ids.toFinset

/-- The closure as the spec's invariant states it, written from the spec's
words: `(parents ∪ childrenOf(parents) ∪ backlog ∪ childrenOf(parents ∪
backlog)) \ ignore`.  Kept separate from the source embedding so the
claimed formula can be compared with the code's actual result. -/
def claim_closure (children : Nat → List Nat) (config : WIConfig) : Finset Nat :=
  (config.parent_feature_ids.toFinset
      ∪ get_child_work_items children config.parent_feature_ids
      ∪ config.backlog_ids.toFinset
      ∪ get_child_work_items children (config.parent_feature_ids ++ config.backlog_ids))
    \ config.ignore_ids.toFinset

/-- Children of every element of a set of ids, as a set operation. -/
def children_of_set (children : Nat → List Nat) (s : Finset Nat) : Finset Nat :=
  s.biUnion (fun parent_id => (children parent_id).toFinset)

/-- A concrete two-level hierarchy: work item 1 has child 2, work item 2
has child 3, and nothing else has children. -/
def chain_children : Nat → List Nat :=
  fun n => if n = 1 then [2] else if n = 2 then [3] else []

def chain_config : WIConfig := ⟨[1], [], []⟩

/-- Hierarchy for the spec's ignore example: work item 1 has children 2
and 3. -/
def example_children : Nat → List Nat :=
  fun n => if n = 1 then [2, 3] else []

def example_config : WIConfig := ⟨[1], [2], [2]⟩

/-! #### Project resolution (workitem.py lines 12-34)

Python exception classes relevant to the embedding.  `KeyError` and
`IndexError` are the subclasses of `LookupError`; `ValueError` and
`TypeError` are not. -/

inductive PyErr where
  | valueError : String → PyErr
  | typeError : String → PyErr
  | keyError : String → PyErr
  | indexError : String → PyErr
  deriving Repr, DecidableEq

def PyErr.isLookupError : PyErr → Bool
  | .keyError _ => true
  | .indexError _ => true
  | _ => false

/-- `WorkItemManager.get_work_item_project` (workitem.py lines 12-21): the
work-item field query is modelled as `api : Nat → Option (List (String ×
String))`, where `none` stands for a failed request (the `requests`
exception is caught, logged and turned into a `None` return) and `some
fields` for the JSON `fields` object of a successful response.  A response
in which the `System.TeamProject` key is absent makes the subscript raise
`KeyError`, which the same handler also turns into `None`. -/
def get_work_item_project (api : Nat → Option (List (String × String))) (work_item_id : Nat) :
    Option String :=
  match api work_item_id with
  | none => none
  | some fields => lookupA "System.TeamProject" fields

def project_error_msg : String :=
  "could not get the project information of the work item"

def base_url_of (organization project : String) : String :=
  "https://dev.azure.com/" ++ organization ++ "/" ++ project ++ "/_apis"

/-- `WorkItemManager.get_project_and_base_url` (workitem.py lines 23-34):
consults the per-run project cache first; on a cache miss it resolves the
project and raises `ValueError` when the result is falsy (`None` or the
empty string).  The cache is threaded explicitly. -/
def get_project_and_base_url (organization : String)
    (api : Nat → Option (List (String × String)))
    (project_cache : List (Nat × String)) (work_item_id : Nat) :
    Except PyErr (String × String × List (Nat × String)) :=
  match lookupA work_item_id project_cache with
  | some project => .ok (project, base_url_of organization project, project_cache)
  | none =>
      match get_work_item_project api work_item_id with
      | none => .error (.valueError project_error_msg)
      | some project =>
          if project = "" then .error (.valueError project_error_msg)
          else .ok (project, base_url_of organization project,
                    updateA project_cache work_item_id project)

/-! ### Embedding of `src/pullrequest.py` -/

structure PRRepository where
  name : Option String
  deriving Repr, DecidableEq

structure PRCommit where
  commitId : Option String
  deriving Repr, DecidableEq

structure PRReviewer where
  displayName : Option String
  deriving Repr, DecidableEq

/-- Raw pull-request details, the JSON body the PR endpoint returns.  Each
field the code reads with `.get` is an `Option`. -/
structure RawPullRequest where
  status : Option String
  repository : Option PRRepository
  targetRefName : Option String
  creationDate : Option String
  lastMergeSourceCommit : Option PRCommit
  reviewers : Option (List PRReviewer)
  title : Option String
  url : Option String
  deriving Repr, DecidableEq

/-- Python `str.replace` over character lists: scan left to right, replace
every non-overlapping occurrence of `pat`, and continue after the
replaced occurrence (the replacement is not rescanned).  The `skip`
counter consumes the tail of a matched occurrence so the recursion stays
structural.  Faithful for a non-empty `pat`, which is the only way the
code uses it. -/
def pyReplaceAux (pat repl : List Char) : List Char → Nat → List Char
  | [], _ => []
  | _ :: cs, skip + 1 => pyReplaceAux pat repl cs skip
  | c :: cs, 0 =>
      if pat ≠ [] ∧ pat.isPrefixOf (c :: cs) then
        repl ++ pyReplaceAux pat repl cs (pat.length - 1)
      else
        c :: pyReplaceAux pat repl cs 0

def pyReplace (s pat repl : String) : String :=
  ⟨pyReplaceAux pat.toList repl.toList s.toList 0⟩

/-- Written from the claim's words, independently of the source embedding:
the string with every occurrence of the substring deleted (scanning left
to right, continuing after each deleted occurrence). -/
def removeOccAux (pat : List Char) : List Char → List Char
  | [] => []
  | c :: cs =>
      if _hmatch : pat ≠ [] ∧ pat.isPrefixOf (c :: cs) then
        removeOccAux pat ((c :: cs).drop pat.length)
      else
        c :: removeOccAux pat cs
  termination_by l => l.length
  decreasing_by
    · have hpat : 0 < pat.length := List.length_pos.mpr _hmatch.1
      simp only [List.length_drop, List.length_cons]
      omega
    · simp only [List.length_cons]
      omega

def remove_every_occurrence (s pat : String) : String :=
  ⟨removeOccAux pat.toList s.toList⟩

/-- Deleting only a leading occurrence of `refs/heads/`, the reading the
claim rules out ("not only a leading prefix"). -/
def strip_leading_ref (s : String) : String :=
  if ("refs/heads/".toList).isPrefixOf s.toList then
    ⟨s.toList.drop ("refs/heads/".toList).length⟩
  else s

/-- Normalized record produced by `extract_pr_info`. -/
structure PRInfo where
  repository : Option String
  target_branch : String
  created_date : Option String
  commit_id : Option String
  reviewers : List (Option String)
  status : Option String
  title : Option String
  url : Option String
  deriving Repr, DecidableEq

/-- `PullRequestManager.extract_pr_info` (pullrequest.py lines 23-44):
returns `None` for a missing input and for status `abandoned`; otherwise
builds the record, stripping every `refs/heads/` occurrence from the
target ref name (Python `str.replace`). -/
def extract_pr_info : Option RawPullRequest → Option PRInfo
  | none => none
  | some pr_details =>
      if pr_details.status = some "abandoned" then none
      else
        some
          { repository := pr_details.repository.bind PRRepository.name
            target_branch := pyReplace (pr_details.targetRefName.getD "") "refs/heads/" ""
            created_date := pr_details.creationDate
            commit_id := pr_details.lastMergeSourceCommit.bind PRCommit.commitId
            reviewers := (pr_details.reviewers.getD []).map PRReviewer.displayName
            status := pr_details.status
            title := pr_details.title
            url := pr_details.url }

/-- The spec's abandoned-PR example: `{status: "abandoned", repository:
{name: "r"}}`. -/
def abandoned_pr : RawPullRequest :=
  { status := some "abandoned", repository := some ⟨some "r"⟩, targetRefName := none,
    creationDate := none, lastMergeSourceCommit := none, reviewers := none,
    title := none, url := none }

/-- An active PR whose target ref contains `refs/heads/` in its interior
as well as at the front. -/
def interior_ref_pr : RawPullRequest :=
  { status := some "active", repository := some ⟨some "svc"⟩,
    targetRefName := some "refs/heads/arefs/heads/b",
    creationDate := some "2024-01-01T00:00:00.000Z",
    lastMergeSourceCommit := some ⟨some "c1"⟩, reviewers := some [⟨some "Alice"⟩],
    title := some "t", url := some "u" }

/-! #### datetime.strptime with format `%Y-%m-%dT%H:%M:%S.%fZ`

CPython's `_strptime` matches `%Y` as exactly four digits, the other
numeric directives as one or two digits within their ranges, and `%f` as
one to six digits padded on the right to microseconds; the `datetime`
constructor then validates the day against the month length.  A parse or
validation failure raises `ValueError`, modelled as `none`. -/

structure PyDateTime where
  year : Nat
  month : Nat
  day : Nat
  hour : Nat
  minute : Nat
  second : Nat
  microsecond : Nat
  deriving Repr, DecidableEq

/-- Mixed-radix key realizing the field-lexicographic comparison of
`datetime` values (fields are within their radix bounds after
validation). -/
def PyDateTime.key (t : PyDateTime) : Nat :=
  ((((t.year * 13 + t.month) * 32 + t.day) * 24 + t.hour) * 60 + t.minute) * 60 * 1000000
    + t.second * 1000000 + t.microsecond

def dtLt (a b : PyDateTime) : Bool := a.key < b.key

def dtGt (a b : PyDateTime) : Bool := b.key < a.key

def digitsToNat (ds : List Char) : Nat :=
  ds.foldl (fun n c => n * 10 + (c.toNat - '0'.toNat)) 0

def parseNumField (minLen maxLen lo hi : Nat) (cs : List Char) : Option (Nat × List Char) :=
  let ds := cs.takeWhile Char.isDigit
  let rest := cs.dropWhile Char.isDigit
  if ds.length < minLen ∨ maxLen < ds.length then none
  else
    let v := digitsToNat ds
    if lo ≤ v ∧ v ≤ hi then some (v, rest) else none

def parseLit (c : Char) : List Char → Option (List Char)
  | [] => none
  | x :: xs => if x = c then some xs else none

def isLeapYear (y : Nat) : Bool :=
  (y % 4 = 0 && y % 100 ≠ 0) || y % 400 = 0

def daysInMonth (y m : Nat) : Nat :=
  if m = 2 then (if isLeapYear y then 29 else 28)
  else if m = 4 ∨ m = 6 ∨ m = 9 ∨ m = 11 then 30
  else 31

def strptimeIsoZ (s : String) : Option PyDateTime := do
  let cs := s.toList
  let (y, cs) ← parseNumField 4 4 1 9999 cs
  let cs ← parseLit '-' cs
  let (mo, cs) ← parseNumField 1 2 1 12 cs
  let cs ← parseLit '-' cs
  let (d, cs) ← parseNumField 1 2 1 31 cs
  let cs ← parseLit 'T' cs
  let (h, cs) ← parseNumField 1 2 0 23 cs
  let cs ← parseLit ':' cs
  let (mi, cs) ← parseNumField 1 2 0 59 cs
  let cs ← parseLit ':' cs
  let (sec, cs) ← parseNumField 1 2 0 59 cs
  let cs ← parseLit '.' cs
  let frac := cs.takeWhile Char.isDigit
  let cs := cs.dropWhile Char.isDigit
  if frac.length < 1 ∨ 6 < frac.length then none
  else
    let us := digitsToNat frac * 10 ^ (6 - frac.length)
    match parseLit 'Z' cs with
    | none => none
    | some cs =>
        if cs.isEmpty ∧ d ≤ daysInMonth y mo then
          some ⟨y, mo, d, h, mi, sec, us⟩
        else none

/-! #### summarize_pr_info (pullrequest.py lines 46-93) -/

structure CommitEntry where
  date : Option String
  hash : Option String
  deriving Repr, DecidableEq

structure BranchInfo where
  oldest_commit : CommitEntry
  newest_commit : CommitEntry
  deriving Repr, DecidableEq

/-- Per-repository summary entry.  The reviewer set is modelled by its
mathematical content as a duplicate-free list in first-insertion order;
note that CPython's own `set` iteration order additionally depends on the
per-process string hash seed, which the embedding does not represent. -/
structure RepoSummary where
  branches : List (String × BranchInfo)
  reviewers : List (Option String)
  deriving Repr, DecidableEq

abbrev Summary := List (Option String × RepoSummary)

def empty_branch_info : BranchInfo := ⟨⟨none, none⟩, ⟨none, none⟩⟩

def insertNew {α : Type} [DecidableEq α] (l : List α) (x : α) : List α :=
  if x ∈ l then l else l ++ [x]

/-- Python `set.update(iterable)`, on the insertion-ordered model. -/
def setUpdate {α : Type} [DecidableEq α] (l : List α) (new : List α) : List α :=
  new.foldl insertNew l

/-- One oldest/newest slot update: overwrite when the stored date is falsy
(`None` or `""`) or when `strict` relates the new parsed timestamp to the
stored parsed timestamp; keep the stored entry otherwise.  Re-parsing a
stored date can only fail (raise `ValueError`) if an unparseable string
were stored, which the successful earlier parse rules out. -/
def updateCommitEntry (strict : PyDateTime → PyDateTime → Bool) (created_date : PyDateTime)
    (pr_date pr_hash : Option String) (entry : CommitEntry) : Except PyErr CommitEntry :=
  match entry.date with
  | none => .ok ⟨pr_date, pr_hash⟩
  | some stored =>
      if stored = "" then .ok ⟨pr_date, pr_hash⟩
      else
        match strptimeIsoZ stored with
        | none => .error (.valueError "time data does not match format")
        | some storedT =>
            if strict created_date storedT then .ok ⟨pr_date, pr_hash⟩ else .ok entry

/-- One iteration of the `summarize_pr_info` loop: skip falsy records;
ensure the repository and branch entries exist; union the reviewers into
the repository-level set; parse the creation date (`ValueError` /
`TypeError` propagate out of the whole summarization); update oldest with
strict `<` and newest with strict `>`. -/
def summarize_step (summary : Summary) (pr_info : Option PRInfo) : Except PyErr Summary :=
  match pr_info with
  | none => .ok summary
  | some pr =>
      let repo := pr.repository
      let repo_summary := (lookupA repo summary).getD ⟨[], []⟩
      let branch := pr.target_branch
      let branch_info := (lookupA branch repo_summary.branches).getD empty_branch_info
      let reviewers' := setUpdate repo_summary.reviewers pr.reviewers
      match pr.created_date with
      | none => .error (.typeError "strptime argument must be str, not None")
      | some date_str =>
          match strptimeIsoZ date_str with
          | none => .error (.valueError "time data does not match format")
          | some created_date =>
              match updateCommitEntry dtLt created_date (some date_str) pr.commit_id
                  branch_info.oldest_commit with
              | .error e => .error e
              | .ok oldest' =>
                  match updateCommitEntry dtGt created_date (some date_str) pr.commit_id
                      branch_info.newest_commit with
                  | .error e => .error e
                  | .ok newest' =>
                      let branches' := updateA repo_summary.branches branch ⟨oldest', newest'⟩
                      .ok (updateA summary repo ⟨branches', reviewers'⟩)

/-- `PullRequestManager.summarize_pr_info`: fold the step over the record
list.  The final `list(set)` conversion of each reviewer set is the
identity on the insertion-ordered model (CPython instead emits the
hash-table iteration order there). -/
def summarize_pr_info (pr_info_list : List (Option PRInfo)) : Except PyErr Summary :=
  pr_info_list.foldlM summarize_step []

/-- Stored branch entry for the tie-break example: first-seen date written
with three fractional digits. -/
def tie_branch_info : BranchInfo :=
  ⟨⟨some "2024-01-01T00:00:00.000Z", some "h0"⟩, ⟨some "2024-01-01T00:00:00.000Z", some "h0"⟩⟩

def tie_repo_summary : RepoSummary := ⟨[("main", tie_branch_info)], [some "Alice"]⟩

def tie_summary : Summary := [(some "svc", tie_repo_summary)]

/-- A later record whose creation timestamp is written differently (six
fractional digits) but parses to the same instant as the stored one. -/
def tie_pr : PRInfo :=
  { repository := some "svc", target_branch := "main",
    created_date := some "2024-01-01T00:00:00.000000Z", commit_id := some "h2",
    reviewers := [some "Bob"], status := some "active", title := some "t", url := some "u" }

/-! ### Embedding of `src/commit_diff.py`

The changed-file list (`diffs/commits`, first 1000 changes) is the
`file_paths` argument; the per-file `diffs/contents` endpoint is the
`fetch` parameter, `none` standing for a non-success status (the file is
logged and skipped). -/

def rstripSlashes (s : String) : String :=
  ⟨(s.toList.reverse.dropWhile (fun c => c = '/')).reverse⟩

/-- Python `s.startswith(pre)`, character-wise. -/
def py_startswith (s pre : String) : Bool :=
  pre.toList.isPrefixOf s.toList

/-- The exclusion test of commit_diff.py line 59:
`path.startswith(ex_dir.rstrip('/') + '/')` for some configured
directory. -/
def excluded_by (exclude_dirs : List String) (path : String) : Bool :=
  exclude_dirs.any (fun ex_dir => py_startswith path (rstripSlashes ex_dir ++ "/"))

/-- Written from the claim's words: the path starts with the directory
entry followed by a path separator. -/
def claim_excluded (exclude_dirs : List String) (path : String) : Bool :=
  exclude_dirs.any (fun ex_dir => py_startswith path (ex_dir ++ "/"))

structure FileDiff where
  path : String
  added : Nat
  deleted : Nat
  type : String
  deriving Repr, DecidableEq

structure DiffState where
  count_added : Nat
  count_deleted : Nat
  count_modified : Nat
  file_diffs : List FileDiff
  deriving Repr, DecidableEq

/-- One iteration of the path loop of
`CommitDiffManager.get_commit_diff_stats_classified` (commit_diff.py
lines 57-94): skip excluded paths, skip paths whose content-diff request
is not successful, otherwise classify and accumulate. -/
def diff_step (exclude_dirs : List String) (fetch : String → Option (Nat × Nat))
    (st : DiffState) (path : String) : DiffState :=
  if excluded_by exclude_dirs path then st
  else
    match fetch path with
    | none => st
    | some (add, delete) =>
        let (kind, st') :=
          if 0 < add ∧ 0 < delete then
            ("modified", { st with count_modified := st.count_modified + (add + delete) })
          else if 0 < add then
            ("added", { st with count_added := st.count_added + add })
          else if 0 < delete then
            ("deleted", { st with count_deleted := st.count_deleted + delete })
          else
            ("unchanged", st)
        { st' with file_diffs := st'.file_diffs ++ [⟨path, add, delete, kind⟩] }

structure DiffStats where
  added : Nat
  deleted : Nat
  modified : Nat
  files : List FileDiff
  deriving Repr, DecidableEq

def get_commit_diff_stats_classified (fetch : String → Option (Nat × Nat))
    (file_paths : List String) (exclude_dirs : List String) : DiffStats :=
  let st := file_paths.foldl (diff_step exclude_dirs fetch) ⟨0, 0, 0, []⟩
  ⟨st.count_added, st.count_deleted, st.count_modified, st.file_diffs⟩

/-! ### Embedding of `src/config.py`

JSON values as Python objects.  JSON numbers with a fractional part
(Python floats) do not occur in any claim and are left out of the model;
every other JSON shape is represented. -/

inductive PyVal where
  | pyNone : PyVal
  | pyBool : Bool → PyVal
  | pyInt : Int → PyVal
  | pyStr : String → PyVal
  | pyList : List PyVal → PyVal
  | pyDict : List (String × PyVal) → PyVal
  deriving Repr

def pyTruthy : PyVal → Bool
  | .pyNone => false
  | .pyBool b => b
  | .pyInt n => n ≠ 0
  | .pyStr s => s ≠ ""
  | .pyList xs => ¬xs.isEmpty
  | .pyDict d => ¬d.isEmpty

/-- Python `s.strip()`: drop whitespace from both ends. -/
def py_strip (s : String) : String :=
  ⟨((s.toList.dropWhile Char.isWhitespace).reverse.dropWhile Char.isWhitespace).reverse⟩

/-- Python `s.split(sep)` for a single-character separator, over character
lists; splitting the empty string yields `[""]`, as in Python. -/
def splitOnChar (c : Char) : List Char → List (List Char)
  | [] => [[]]
  | x :: xs =>
      if x = c then [] :: splitOnChar c xs
      else
        match splitOnChar c xs with
        | [] => [[x]]
        | group :: groups => (x :: group) :: groups

def py_split (s : String) (c : Char) : List String :=
  (splitOnChar c s.toList).map String.mk

/-- Python `int(s)` for a string: optional surrounding whitespace,
optional sign, one or more digits (digit-group underscores are not
modelled; no claim involves them).  `none` models the `ValueError`. -/
def str_to_int (s : String) : Option Int :=
  let t := (py_strip s).toList
  let (sign, digits) :=
    match t with
    | '+' :: rest => ((1 : Int), rest)
    | '-' :: rest => ((-1 : Int), rest)
    | l => ((1 : Int), l)
  if digits ≠ [] ∧ digits.all Char.isDigit then some (sign * (digitsToNat digits : Int))
  else none

/-- Python `int(x)` on a JSON value: ints and bools convert, strings are
parsed, and `None`, lists and dicts raise `TypeError`. -/
def pyToInt : PyVal → Except PyErr Int
  | .pyBool b => .ok (if b then 1 else 0)
  | .pyInt n => .ok n
  | .pyStr s =>
      match str_to_int s with
      | some n => .ok n
      | none => .error (.valueError "invalid literal for int with base 10")
  | _ => .error (.typeError "int argument must be a string or a number")

/-- Test standing for Python `str(id).strip()` being empty in the list
comprehension filter: `str()` of `None`, a bool, a number, a list or a
dict is never blank, so only a blank string element can be filtered
out. -/
def str_strip_blank : PyVal → Bool
  | .pyStr s => py_strip s = ""
  | _ => false

/-- `ConfigManager._parse_id_list` (config.py lines 51-68): falsy input
gives `[]`; a list keeps the non-blank elements and converts each with
`int`; a string is split on commas, blank pieces dropped, the rest
converted; an int or bool (a Python scalar) becomes a singleton; any
other shape raises. -/
def parse_id_list (id_input : PyVal) : Except PyErr (List Int) :=
  if pyTruthy id_input = false then .ok []
  else
    match id_input with
    | .pyList xs => (xs.filter (fun x => ¬str_strip_blank x)).mapM pyToInt
    | .pyStr s =>
        ((py_split s ',').filter (fun piece => py_strip piece ≠ "")).mapM
          (fun piece =>
            match str_to_int (py_strip piece) with
            | some n => Except.ok n
            | none => Except.error (.valueError "invalid literal for int with base 10"))
    | .pyInt n => .ok [n]
    | .pyBool _ => .ok [1]
    | _ => .error (.valueError "unsupported id format")

def load_error_msg : String := "failed to load the configuration file"

/-- Third and fourth statements of the `try` block: normalize
`ignore_ids` and coerce `is_only_completed_item` to bool. -/
def load_config_stage₃ (config : List (String × PyVal)) :
    Except PyErr (List (String × PyVal)) :=
  match parse_id_list ((lookupA "ignore_ids" config).getD (.pyStr "")) with
  | .error e => .error e
  | .ok ig =>
      .ok (updateA (updateA config "ignore_ids" (.pyList (ig.map PyVal.pyInt)))
        "is_only_completed_item"
        (.pyBool (pyTruthy ((lookupA "is_only_completed_item"
          (updateA config "ignore_ids" (.pyList (ig.map PyVal.pyInt)))).getD (.pyBool false)))))

/-- Second statement of the `try` block: normalize `backlog_item_ids`,
then continue. -/
def load_config_stage₂ (config : List (String × PyVal)) :
    Except PyErr (List (String × PyVal)) :=
  match parse_id_list ((lookupA "backlog_item_ids" config).getD (.pyStr "")) with
  | .error e => .error e
  | .ok bi => load_config_stage₃ (updateA config "backlog_item_ids" (.pyList (bi.map PyVal.pyInt)))

/-- Body of the `try` block of `load_config`: the four normalizing
assignments run in order, the first exception propagating. -/
def load_config_body (config : List (String × PyVal)) : Except PyErr (List (String × PyVal)) :=
  match parse_id_list ((lookupA "parent_feature_ids" config).getD (.pyStr "")) with
  | .error e => .error e
  | .ok pf => load_config_stage₂ (updateA config "parent_feature_ids" (.pyList (pf.map PyVal.pyInt)))

/-- `ConfigManager.load_config` (config.py lines 31-49), starting from the
already-parsed JSON dict: normalizes `parent_feature_ids`,
`backlog_item_ids` and `ignore_ids` with `_parse_id_list` (default `''`
when the key is absent) and coerces `is_only_completed_item` to bool;
any exception inside is re-raised as a `ValueError` (the Python message
also interpolates the original error text). -/
def load_config (config : List (String × PyVal)) : Except PyErr (List (String × PyVal)) :=
  match load_config_body config with
  | .ok c => .ok c
  | .error _ => .error (.valueError load_error_msg)

/-! ## Helper lemmas -/

theorem foldl_union_eq (children : Nat → List Nat) (l : List Nat) (s : Finset Nat) :
    l.foldl (fun acc p => acc ∪ (children p).toFinset) s =
      s ∪ children_of_set children l.toFinset := by
  induction l generalizing s with
  | nil => simp [children_of_set]
  | cons x xs ih =>
      simp only [List.foldl_cons, ih, children_of_set, List.toFinset_cons, Finset.biUnion_insert]
      ext a
      simp only [Finset.mem_union, Finset.mem_biUnion]
      tauto

theorem get_child_work_items_eq (children : Nat → List Nat) (l : List Nat) :
    get_child_work_items children l = children_of_set children l.toFinset := by
  simpa [get_child_work_items] using foldl_union_eq children l ∅

theorem get_all_related_work_items_eq (children : Nat → List Nat) (config : WIConfig) :
    get_all_related_work_items children config =
      (config.parent_feature_ids.toFinset
          ∪ get_child_work_items children config.parent_feature_ids
          ∪ config.backlog_ids.toFinset
          ∪ children_of_set children
              (get_child_work_items children config.parent_feature_ids
                ∪ config.backlog_ids.toFinset))
        \ config.ignore_ids.toFinset := by
  unfold get_all_related_work_items
  simp only [get_child_work_items_eq, Finset.sort_toFinset, Finset.empty_union]
  congr 1
  ac_rfl

theorem lookupA_updateA_self {α β : Type} [DecidableEq α] (l : List (α × β)) (k : α) (v : β) :
    lookupA k (updateA l k v) = some v := by
  induction l with
  | nil => simp [updateA, lookupA]
  | cons hd tl ih =>
      obtain ⟨k', v'⟩ := hd
      by_cases hk : k = k' <;> simp [updateA, lookupA, hk, ih]

theorem lookupA_updateA_ne {α β : Type} [DecidableEq α] (l : List (α × β)) (k k' : α) (v : β)
    (h : k' ≠ k) : lookupA k' (updateA l k v) = lookupA k' l := by
  induction l with
  | nil => simp [updateA, lookupA, h]
  | cons hd tl ih =>
      obtain ⟨k₀, v₀⟩ := hd
      by_cases hk : k = k₀
      · subst hk
        simp [updateA, lookupA, h]
      · by_cases hk' : k' = k₀ <;> simp [updateA, lookupA, hk, hk', ih]

/-! ## Claim C1 -/

/-- C1 (counterexample): with work item 1 having child 2 and work item 2
having child 3, parents=[1], backlog=[], ignore=[], the code's closure is
`{1, 2, 3}` (the second child expansion runs on the already-expanded set,
so the grandchild 3 is picked up), while the claimed formula
`(parents ∪ childrenOf(parents) ∪ backlog ∪ childrenOf(parents ∪ backlog))
\ ignore` yields only `{1, 2}`. -/
theorem closure_formula_counterexample :
    get_all_related_work_items chain_children chain_config ≠
        claim_closure chain_children chain_config ∧
      get_all_related_work_items chain_children chain_config = {1, 2, 3} ∧
      claim_closure chain_children chain_config = {1, 2} := by
  refine ⟨?_, ?_, ?_⟩
  · rw [get_all_related_work_items_eq]
    decide
  · rw [get_all_related_work_items_eq]
    decide
  · decide

/-- C1 (amended): for every configuration and every backing hierarchy
graph, `get_all_related_work_items` returns exactly
`(parents ∪ childrenOf(parents) ∪ backlog ∪
childrenOf(childrenOf(parents) ∪ backlog)) \ ignore`, computed in the
order: children of the configured parent ids first, then children of the
union of those children with the backlog ids, then addition of the parent
ids, then subtraction of the ignore ids. -/
theorem closure_two_phase (children : Nat → List Nat) (config : WIConfig) :
    get_all_related_work_items children config =
      (config.parent_feature_ids.toFinset
          ∪ get_child_work_items children config.parent_feature_ids
          ∪ config.backlog_ids.toFinset
          ∪ children_of_set children
              (get_child_work_items children config.parent_feature_ids
                ∪ config.backlog_ids.toFinset))
        \ config.ignore_ids.toFinset :=
  get_all_related_work_items_eq children config

/-! ## Claim C2 -/

/-- C2: for every configuration and backing hierarchy graph, the set
returned by `get_all_related_work_items` contains no id listed in
`ignore_ids`, even when the id is also a parent or backlog id or is
reachable as a child: the ignore subtraction is the last step. -/
theorem closure_excludes_ignore_ids (children : Nat → List Nat) (config : WIConfig)
    (i : Nat) (h : i ∈ config.ignore_ids) :
    i ∉ get_all_related_work_items children config := by
  rw [get_all_related_work_items_eq]
  simp only [Finset.mem_sdiff, List.mem_toFinset, not_and, not_not]
  intro _
  exact h

/-- C2 (witness): the spec's example — parents=[1], backlog=[2],
ignore=[2], work item 1 has children 2 and 3; the ignored id 2 is not in
the closure, and the closure is `{1, 3}`. -/
theorem closure_excludes_ignore_ids_witness :
    2 ∈ example_config.ignore_ids ∧
      2 ∉ get_all_related_work_items example_children example_config ∧
      get_all_related_work_items example_children example_config = {1, 3} := by
  refine ⟨by decide, closure_excludes_ignore_ids example_children example_config 2 (by decide), ?_⟩
  rw [get_all_related_work_items_eq]
  decide

/-! ## Claim C3 -/

/-- C3: `extract_pr_info` returns no record when the input is missing or
when its status is `"abandoned"`, regardless of all other fields. -/
theorem extract_skips_abandoned :
    extract_pr_info none = none ∧
      ∀ pr_details : RawPullRequest, pr_details.status = some "abandoned" →
        extract_pr_info (some pr_details) = none := by
  refine ⟨rfl, fun pr_details h => ?_⟩
  simp [extract_pr_info, h]

/-- C3 (witness): the spec's example `{status: "abandoned", repository:
{name: "r"}}` yields no record. -/
theorem extract_skips_abandoned_witness :
    abandoned_pr.status = some "abandoned" ∧ extract_pr_info (some abandoned_pr) = none :=
  ⟨rfl, extract_skips_abandoned.2 abandoned_pr rfl⟩

/-! ## Claim C10 -/

theorem pyReplaceAux_skip (pat repl : List Char) :
    ∀ (l : List Char) (k : Nat), pyReplaceAux pat repl l k = pyReplaceAux pat repl (l.drop k) 0 := by
  intro l
  induction l with
  | nil => intro k; cases k <;> rfl
  | cons c cs ih =>
      intro k
      cases k with
      | zero => rfl
      | succ k => simpa [pyReplaceAux] using ih k

theorem pyReplaceAux_empty_repl (pat : List Char) :
    ∀ (n : Nat) (l : List Char), l.length ≤ n →
      pyReplaceAux pat [] l 0 = removeOccAux pat l := by
  intro n
  induction n with
  | zero =>
      intro l hl
      have hnil : l = [] := List.eq_nil_of_length_eq_zero (Nat.le_zero.mp hl)
      subst hnil
      simp [pyReplaceAux, removeOccAux]
  | succ n ih =>
      intro l hl
      match l with
      | [] => simp [pyReplaceAux, removeOccAux]
      | c :: cs =>
          rw [pyReplaceAux, removeOccAux]
          by_cases h : pat ≠ [] ∧ pat.isPrefixOf (c :: cs)
          · rw [if_pos h, dif_pos h]
            have hp : 0 < pat.length := List.length_pos.mpr h.1
            obtain ⟨k, hk⟩ : ∃ k, pat.length = k + 1 := ⟨pat.length - 1, by omega⟩
            rw [hk, List.drop_succ_cons, List.nil_append]
            have hskip : pyReplaceAux pat [] cs (k + 1 - 1) = pyReplaceAux pat [] (cs.drop k) 0 := by
              simpa using pyReplaceAux_skip pat [] cs k
            rw [hskip]
            have hlen : (cs.drop k).length ≤ n := by
              have := List.length_drop k cs
              simp only [List.length_cons] at hl
              omega
            exact ih (cs.drop k) hlen
          · rw [if_neg h, dif_neg h]
            have hlen : cs.length ≤ n := by
              simp only [List.length_cons] at hl
              omega
            rw [ih cs hlen]

theorem pyReplace_empty_eq (s pat : String) :
    pyReplace s pat "" = remove_every_occurrence s pat :=
  congrArg String.mk (pyReplaceAux_empty_repl pat.toList s.toList.length s.toList le_rfl)

/-- C10: for a present raw PR whose status is not `"abandoned"`, the
record's `target_branch` is the `targetRefName` string (default `""`)
with every occurrence of `"refs/heads/"` removed, not only a leading
prefix: at a ref name with an interior occurrence the result (`"ab"`)
differs from the leading-prefix strip (`"arefs/heads/b"`). -/
theorem target_branch_removes_every_ref (pr_details : RawPullRequest)
    (h : pr_details.status ≠ some "abandoned") :
    (∃ info, extract_pr_info (some pr_details) = some info ∧
        info.target_branch =
          remove_every_occurrence (pr_details.targetRefName.getD "") "refs/heads/") ∧
      remove_every_occurrence "refs/heads/arefs/heads/b" "refs/heads/" = "ab" ∧
      strip_leading_ref "refs/heads/arefs/heads/b" = "arefs/heads/b" := by
  refine ⟨?_, (pyReplace_empty_eq _ _).symm.trans (by rfl), by rfl⟩
  simp only [extract_pr_info]
  rw [if_neg h]
  exact ⟨_, rfl, pyReplace_empty_eq _ _⟩

/-- C10 (witness): the interior-occurrence example evaluated through
`extract_pr_info`. -/
theorem target_branch_removes_every_ref_witness :
    interior_ref_pr.status ≠ some "abandoned" ∧
      ∃ info, extract_pr_info (some interior_ref_pr) = some info ∧
        info.target_branch = "ab" := by
  refine ⟨by decide, ?_⟩
  obtain ⟨info, hinfo, hbranch⟩ :=
    (target_branch_removes_every_ref interior_ref_pr (by decide)).1
  exact ⟨info, hinfo, hbranch.trans ((pyReplace_empty_eq _ _).symm.trans (by rfl))⟩

/-! ## Claim C4 -/

/-- C4: for a non-excluded file whose content diff succeeds with counts
`add` and `delete`, the loop body tags the file `"modified"` and adds
`add + delete` to the modified total when both are positive; `"added"`
adding `add` when only `add` is positive; `"deleted"` adding `delete`
when only `delete` is positive; and `"unchanged"` when both are zero,
accumulating into no total while still appending the file entry. -/
theorem classify_file_cases (exclude_dirs : List String) (fetch : String → Option (Nat × Nat))
    (st : DiffState) (path : String) (add delete : Nat)
    (hex : excluded_by exclude_dirs path = false)
    (hf : fetch path = some (add, delete)) :
    (0 < add → 0 < delete →
        diff_step exclude_dirs fetch st path =
          { st with count_modified := st.count_modified + (add + delete),
                    file_diffs := st.file_diffs ++ [⟨path, add, delete, "modified"⟩] }) ∧
      (0 < add → delete = 0 →
        diff_step exclude_dirs fetch st path =
          { st with count_added := st.count_added + add,
                    file_diffs := st.file_diffs ++ [⟨path, add, delete, "added"⟩] }) ∧
      (add = 0 → 0 < delete →
        diff_step exclude_dirs fetch st path =
          { st with count_deleted := st.count_deleted + delete,
                    file_diffs := st.file_diffs ++ [⟨path, add, delete, "deleted"⟩] }) ∧
      (add = 0 → delete = 0 →
        diff_step exclude_dirs fetch st path =
          { st with file_diffs := st.file_diffs ++ [⟨path, add, delete, "unchanged"⟩] }) := by
  refine ⟨fun h1 h2 => ?_, fun h1 h2 => ?_, fun h1 h2 => ?_, fun h1 h2 => ?_⟩ <;>
    simp [diff_step, hex, hf, h1, h2, Nat.pos_iff_ne_zero]

/-- C4 (witness): a file with 2 added and 3 deleted lines, on a state with
prior totals 1/2/3, is classified `"modified"` and raises the modified
total to 8. -/
theorem classify_file_cases_witness :
    excluded_by ["docs"] "src/a.py" = false ∧
      diff_step ["docs"] (fun _ => some (2, 3)) ⟨1, 2, 3, []⟩ "src/a.py" =
        ⟨1, 2, 8, [⟨"src/a.py", 2, 3, "modified"⟩]⟩ := by
  refine ⟨by rfl, ?_⟩
  have h :=
    (classify_file_cases ["docs"] (fun _ => some (2, 3)) ⟨1, 2, 3, []⟩ "src/a.py" 2 3
      (by rfl) rfl).1 (by decide) (by decide)
  simpa using h

/-! ## Claim C5 -/

/-- C5 (counterexample): with `excludeDirs = ["docs/"]` — an entry with a
trailing slash — the code still skips `"docs/readme.md"` (the entry is
right-stripped of slashes before the separator is appended), while the
claim's criterion "starts with the entry followed by a path separator"
(`"docs//"`) says the path is not excluded. -/
theorem excluded_dirs_claim_counterexample :
    get_commit_diff_stats_classified (fun _ => some (1, 0)) ["docs/readme.md"] ["docs/"] =
        ⟨0, 0, 0, []⟩ ∧
      excluded_by ["docs/"] "docs/readme.md" = true ∧
      claim_excluded ["docs/"] "docs/readme.md" = false := by
  exact ⟨rfl, rfl, rfl⟩

theorem foldl_diff_step_filter (exclude_dirs : List String) (fetch : String → Option (Nat × Nat)) :
    ∀ (file_paths : List String) (st : DiffState),
      file_paths.foldl (diff_step exclude_dirs fetch) st =
        (file_paths.filter (fun p => !excluded_by exclude_dirs p)).foldl
          (diff_step exclude_dirs fetch) st := by
  intro file_paths
  induction file_paths with
  | nil => intro st; rfl
  | cons p ps ih =>
      intro st
      by_cases hp : excluded_by exclude_dirs p = true
      · have hstep : diff_step exclude_dirs fetch st p = st := by
          simp [diff_step, hp]
        simp [List.filter_cons, hp, hstep, ih]
      · simp only [Bool.not_eq_true] at hp
        simp [List.filter_cons, hp, ih]

/-- C5 (amended): the loop skips exactly the paths for which some entry of
`excludeDirs`, right-stripped of `'/'` characters and followed by `'/'`,
is a prefix of the path — so the result equals the result on the
pre-filtered path list; with `excludeDirs = ["docs"]`, `"docs/readme.md"`
is excluded while `"docsother/x.md"` is not, and the entry `"docs/"`
excludes `"docs/readme.md"` as well. -/
theorem excluded_dirs_skip (exclude_dirs : List String) (fetch : String → Option (Nat × Nat))
    (file_paths : List String) :
    get_commit_diff_stats_classified fetch file_paths exclude_dirs =
        get_commit_diff_stats_classified fetch
          (file_paths.filter (fun p => !excluded_by exclude_dirs p)) exclude_dirs ∧
      (∀ path, excluded_by exclude_dirs path = true ↔
        ∃ ex_dir ∈ exclude_dirs, py_startswith path (rstripSlashes ex_dir ++ "/") = true) ∧
      excluded_by ["docs"] "docs/readme.md" = true ∧
      excluded_by ["docs"] "docsother/x.md" = false ∧
      excluded_by ["docs/"] "docs/readme.md" = true := by
  refine ⟨?_, ?_, rfl, rfl, rfl⟩
  · unfold get_commit_diff_stats_classified
    rw [foldl_diff_step_filter]
  · intro path
    simp [excluded_by, List.any_eq_true]

/-! ## Claim C6 -/

/-- C6: a branch's oldest and newest entries are replaced only under
strict comparison of the parsed creation timestamps: when a later
record's timestamp parses equal to the stored one, the first-seen
(date, hash) pair stays recorded as both oldest and newest for that
branch. -/
theorem summarize_strict_tiebreak
    (summary : Summary) (pr : PRInfo) (rs : RepoSummary)
    (d0 d1 date_str : String) (h0 h1 : Option String) (t : PyDateTime)
    (hrepo : lookupA pr.repository summary = some rs)
    (hbranch : lookupA pr.target_branch rs.branches =
      some ⟨⟨some d0, h0⟩, ⟨some d1, h1⟩⟩)
    (hd0 : d0 ≠ "") (hd1 : d1 ≠ "")
    (hp0 : strptimeIsoZ d0 = some t) (hp1 : strptimeIsoZ d1 = some t)
    (hs : pr.created_date = some date_str) (hps : strptimeIsoZ date_str = some t) :
    ∃ summary', summarize_step summary (some pr) = .ok summary' ∧
      ∃ rs', lookupA pr.repository summary' = some rs' ∧
        lookupA pr.target_branch rs'.branches = some ⟨⟨some d0, h0⟩, ⟨some d1, h1⟩⟩ := by
  have holdest : updateCommitEntry dtLt t (some date_str) pr.commit_id ⟨some d0, h0⟩ =
      .ok ⟨some d0, h0⟩ := by
    simp [updateCommitEntry, hd0, hp0, dtLt]
  have hnewest : updateCommitEntry dtGt t (some date_str) pr.commit_id ⟨some d1, h1⟩ =
      .ok ⟨some d1, h1⟩ := by
    simp [updateCommitEntry, hd1, hp1, dtGt]
  simp only [summarize_step, hrepo, hbranch, hs, hps, Option.getD_some, holdest, hnewest]
  exact ⟨_, rfl, _, lookupA_updateA_self _ _ _, lookupA_updateA_self _ _ _⟩

/-- C6 (witness): the stored entry with date
`"2024-01-01T00:00:00.000Z"` and hash `"h0"` survives a later record
whose creation date `"2024-01-01T00:00:00.000000Z"` is a different
string that parses to the same instant. -/
theorem summarize_strict_tiebreak_witness :
    ∃ summary', summarize_step tie_summary (some tie_pr) = .ok summary' ∧
      ∃ rs', lookupA tie_pr.repository summary' = some rs' ∧
        lookupA tie_pr.target_branch rs'.branches =
          some ⟨⟨some "2024-01-01T00:00:00.000Z", some "h0"⟩,
            ⟨some "2024-01-01T00:00:00.000Z", some "h0"⟩⟩ :=
  summarize_strict_tiebreak tie_summary tie_pr tie_repo_summary
    "2024-01-01T00:00:00.000Z" "2024-01-01T00:00:00.000Z" "2024-01-01T00:00:00.000000Z"
    (some "h0") (some "h0") ⟨2024, 1, 1, 0, 0, 0, 0⟩
    rfl rfl (by decide) (by decide) (by rfl) (by rfl) rfl (by rfl)

/-! ## Claim C8 -/

/-- C8 (counterexample): with an erroring API and an empty cache, the
resolution of work item 42 fails with a `ValueError`, which is not a
`LookupError` (`KeyError`/`IndexError` are the `LookupError`
subclasses; `ValueError` is not). -/
theorem resolve_project_error_class_counterexample :
    get_project_and_base_url "org" (fun _ => none) [] 42 =
        .error (.valueError project_error_msg) ∧
      PyErr.isLookupError (.valueError project_error_msg) = false :=
  ⟨rfl, rfl⟩

/-- C8 (amended): for an uncached work item id, resolution fails with a
`ValueError` when the underlying API call errors or the team-project
field is absent; the failure is raised to the caller (an `Except.error`
result), not swallowed or retried. -/
theorem resolve_project_fails_value_error (organization : String)
    (api : Nat → Option (List (String × String)))
    (project_cache : List (Nat × String)) (work_item_id : Nat)
    (hcache : lookupA work_item_id project_cache = none)
    (h : api work_item_id = none ∨
      ∃ fields, api work_item_id = some fields ∧ lookupA "System.TeamProject" fields = none) :
    get_project_and_base_url organization api project_cache work_item_id =
      .error (.valueError project_error_msg) := by
  have hp : get_work_item_project api work_item_id = none := by
    cases h with
    | inl h => simp [get_work_item_project, h]
    | inr h =>
        obtain ⟨fields, h1, h2⟩ := h
        simp [get_work_item_project, h1, h2]
  simp [get_project_and_base_url, hcache, hp]

/-- C8 (witness): empty cache, API that errors on every id. -/
theorem resolve_project_fails_value_error_witness :
    lookupA 1 ([] : List (Nat × String)) = none ∧
      get_project_and_base_url "org" (fun _ => none) [] 1 =
        .error (.valueError project_error_msg) :=
  ⟨rfl, resolve_project_fails_value_error "org" (fun _ => none) [] 1 rfl (Or.inl rfl)⟩

/-! ## Claim C9 -/

/-- C9 (counterexample): a configuration whose `backlog_ids` field is the
comma-separated string `"1,2"` is returned with that field untouched
(still a string, not a list of integers); the normalization instead
targets the key `backlog_item_ids`, which is added as the empty list. -/
theorem load_config_backlog_key_counterexample :
    load_config [("backlog_ids", PyVal.pyStr "1,2")] =
        .ok [("backlog_ids", PyVal.pyStr "1,2"), ("parent_feature_ids", PyVal.pyList []),
          ("backlog_item_ids", PyVal.pyList []), ("ignore_ids", PyVal.pyList []),
          ("is_only_completed_item", PyVal.pyBool false)] ∧
      (∀ ids : List Int, PyVal.pyStr "1,2" ≠ PyVal.pyList (ids.map PyVal.pyInt)) :=
  ⟨rfl, fun _ h => PyVal.noConfusion h⟩

theorem load_config_stage₃_fields (config c : List (String × PyVal))
    (h : load_config_stage₃ config = .ok c) :
    ∃ ig : List Int,
      lookupA "ignore_ids" c = some (PyVal.pyList (ig.map PyVal.pyInt)) ∧
      ∀ k : String, k ≠ "ignore_ids" → k ≠ "is_only_completed_item" →
        lookupA k c = lookupA k config := by
  unfold load_config_stage₃ at h
  split at h
  · exact Except.noConfusion h
  next ig hig =>
    injection h with h
    subst h
    refine ⟨ig, ?_, ?_⟩
    · rw [lookupA_updateA_ne _ _ _ _ (by decide), lookupA_updateA_self]
    · intro k hk1 hk2
      rw [lookupA_updateA_ne _ _ _ _ hk2, lookupA_updateA_ne _ _ _ _ hk1]

theorem load_config_stage₂_fields (config c : List (String × PyVal))
    (h : load_config_stage₂ config = .ok c) :
    ∃ bi ig : List Int,
      lookupA "backlog_item_ids" c = some (PyVal.pyList (bi.map PyVal.pyInt)) ∧
      lookupA "ignore_ids" c = some (PyVal.pyList (ig.map PyVal.pyInt)) ∧
      ∀ k : String, k ≠ "backlog_item_ids" → k ≠ "ignore_ids" →
        k ≠ "is_only_completed_item" → lookupA k c = lookupA k config := by
  unfold load_config_stage₂ at h
  split at h
  · exact Except.noConfusion h
  next bi hbi =>
    obtain ⟨ig, hig, hpres⟩ := load_config_stage₃_fields _ _ h
    refine ⟨bi, ig, ?_, hig, ?_⟩
    · rw [hpres _ (by decide) (by decide), lookupA_updateA_self]
    · intro k h1 h2 h3
      rw [hpres k h2 h3, lookupA_updateA_ne _ _ _ _ h1]

theorem load_config_normalized_fields (config c : List (String × PyVal))
    (h : load_config_body config = .ok c) :
    ∃ pf bi ig : List Int,
      lookupA "parent_feature_ids" c = some (PyVal.pyList (pf.map PyVal.pyInt)) ∧
      lookupA "backlog_item_ids" c = some (PyVal.pyList (bi.map PyVal.pyInt)) ∧
      lookupA "ignore_ids" c = some (PyVal.pyList (ig.map PyVal.pyInt)) := by
  unfold load_config_body at h
  split at h
  · exact Except.noConfusion h
  next pf hpf =>
    obtain ⟨bi, ig, hbi, hig, hpres⟩ := load_config_stage₂_fields _ _ h
    refine ⟨pf, bi, ig, ?_, hbi, hig⟩
    rw [hpres _ (by decide) (by decide) (by decide), lookupA_updateA_self]

/-- C9 (amended): `load_config` returns the fields `parent_feature_ids`,
`backlog_item_ids` and `ignore_ids` normalized to lists of integers,
accepting for each a comma-separated string, a native list, or a single
scalar; an input of any other shape fails, the error being re-raised as
the loader's `ValueError`. -/
theorem load_config_normalizes (config : List (String × PyVal)) :
    ((∃ pf bi ig : List Int, ∃ c, load_config config = .ok c ∧
        lookupA "parent_feature_ids" c = some (PyVal.pyList (pf.map PyVal.pyInt)) ∧
        lookupA "backlog_item_ids" c = some (PyVal.pyList (bi.map PyVal.pyInt)) ∧
        lookupA "ignore_ids" c = some (PyVal.pyList (ig.map PyVal.pyInt))) ∨
      load_config config = .error (.valueError load_error_msg)) ∧
      (∀ n : Int, parse_id_list (.pyInt n) = .ok (if n = 0 then [] else [n])) ∧
      parse_id_list (.pyStr "1, 2,3") = .ok [1, 2, 3] ∧
      parse_id_list (.pyList [.pyInt 4, .pyStr "5", .pyStr " "]) = .ok [4, 5] ∧
      parse_id_list (.pyDict [("x", .pyInt 1)]) =
        .error (.valueError "unsupported id format") := by
  refine ⟨?_, ?_, by rfl, by rfl, by rfl⟩
  · cases hb : load_config_body config with
    | error e =>
        right
        simp [load_config, hb]
    | ok c =>
        left
        obtain ⟨pf, bi, ig, h1, h2, h3⟩ := load_config_normalized_fields config c hb
        exact ⟨pf, bi, ig, c, by simp [load_config, hb], h1, h2, h3⟩
  · intro n
    by_cases hn : n = 0 <;> simp [parse_id_list, pyTruthy, hn]

end AzDevOpsAudit
